import Mathlib

/-!
Shallow embedding of the image-analysis core of `app.py` (PunarVastra backend).

Numeric conventions: Python floats are modelled as exact rationals (`ℚ`);
8-bit pixel channel values as `ℕ`.  Python's `round(x, n)` (round half to
even) is modelled by `pyRound`.  The external imaging primitives
(`cv2.imread`, `cv2.Canny`, `KMeans`, `np.var`, …) are not part of the
repository; a successful decode-and-measure step is abstracted as an
`ImageStats` value carrying exactly the quantities the repository's own code
consumes (dominant cluster centers, edge density, grayscale variance and
standard deviation, pixel count, Laplacian variance), and a failed one as
`none`.  The `random.choice` / `random.uniform` draws of the simulation
branch are abstracted as an explicit `RandomChoices` argument.
-/

/-- Round half to even on rationals (Python's `round` on exact values). -/
def roundHalfEven (q : ℚ) : ℤ :=
  if q - ⌊q⌋ < 1/2 then ⌊q⌋
  else if 1/2 < q - ⌊q⌋ then ⌊q⌋ + 1
  else if ⌊q⌋ % 2 = 0 then ⌊q⌋ else ⌊q⌋ + 1

/-- Python's `round(q, p)` on exact rationals. -/
def pyRound (q : ℚ) (p : ℕ) : ℚ :=
  (roundHalfEven (q * (10 : ℚ) ^ p) : ℚ) / (10 : ℚ) ^ p

theorem roundHalfEven_ge_int (n : ℤ) (q : ℚ) (h : (n : ℚ) ≤ q) :
    n ≤ roundHalfEven q := by
  have hf : n ≤ ⌊q⌋ := Int.le_floor.mpr h
  unfold roundHalfEven
  split_ifs <;> omega

theorem roundHalfEven_le_int (n : ℤ) (q : ℚ) (h : q ≤ (n : ℚ)) :
    roundHalfEven q ≤ n := by
  have hfl : (⌊q⌋ : ℚ) ≤ q := Int.floor_le q
  have hf : ⌊q⌋ ≤ n := by
    have : (⌊q⌋ : ℚ) ≤ (n : ℚ) := le_trans hfl h
    exact_mod_cast this
  have hstrict : 1/2 < q - (⌊q⌋ : ℚ) ∨ 1/2 = q - (⌊q⌋ : ℚ) → ⌊q⌋ + 1 ≤ n := by
    intro hc
    have hlt : (⌊q⌋ : ℚ) < q := by rcases hc with hc | hc <;> linarith
    have : (⌊q⌋ : ℚ) < (n : ℚ) := lt_of_lt_of_le hlt h
    have : ⌊q⌋ < n := by exact_mod_cast this
    omega
  unfold roundHalfEven
  split_ifs with h1 h2 h3
  · exact hf
  · exact hstrict (Or.inl h2)
  · exact hf
  · exact hstrict (Or.inr (by linarith))

theorem pyRound_ge_int (n : ℤ) (q : ℚ) (p : ℕ) (h : (n : ℚ) ≤ q) :
    (n : ℚ) ≤ pyRound q p := by
  have hp : (0 : ℚ) < (10 : ℚ) ^ p := by positivity
  have hmul : ((n * 10 ^ p : ℤ) : ℚ) ≤ q * (10 : ℚ) ^ p := by
    push_cast
    exact mul_le_mul_of_nonneg_right h (le_of_lt hp)
  have hr := roundHalfEven_ge_int (n * 10 ^ p) _ hmul
  unfold pyRound
  rw [le_div_iff₀ hp]
  have hcast : ((n * 10 ^ p : ℤ) : ℚ) ≤ (roundHalfEven (q * (10 : ℚ) ^ p) : ℚ) := by
    exact_mod_cast hr
  push_cast at hcast ⊢
  linarith

theorem pyRound_le_int (n : ℤ) (q : ℚ) (p : ℕ) (h : q ≤ (n : ℚ)) :
    pyRound q p ≤ (n : ℚ) := by
  have hp : (0 : ℚ) < (10 : ℚ) ^ p := by positivity
  have hmul : q * (10 : ℚ) ^ p ≤ ((n * 10 ^ p : ℤ) : ℚ) := by
    push_cast
    exact mul_le_mul_of_nonneg_right h (le_of_lt hp)
  have hr := roundHalfEven_le_int (n * 10 ^ p) _ hmul
  unfold pyRound
  rw [div_le_iff₀ hp]
  have hcast : (roundHalfEven (q * (10 : ℚ) ^ p) : ℚ) ≤ ((n * 10 ^ p : ℤ) : ℚ) := by
    exact_mod_cast hr
  push_cast at hcast ⊢
  linarith

/-- One RGB pixel / cluster center, channels as produced by
`kmeans.cluster_centers_.astype(int)` (nonnegative 8-bit range values). -/
structure Rgb where
  r : ℕ
  g : ℕ
  b : ℕ
deriving DecidableEq

/-- Lower-case hex digit, as produced by Python's format spec `x`. -/
def hexChar (n : ℕ) : Char :=
  if n < 10 then Char.ofNat (48 + n) else Char.ofNat (87 + n)

/-- Hexadecimal digit expansion of a natural number (most significant first). -/
def hexRep (n : ℕ) : List Char :=
  if h : n < 16 then [hexChar n]
  else hexRep (n / 16) ++ [hexChar (n % 16)]
decreasing_by exact Nat.div_lt_self (by omega) (by omega)

/-- Python's `'{:02x}'.format n`: hex, zero-padded to width at least 2. -/
def hex02 (n : ℕ) : String :=
  String.mk (if (hexRep n).length < 2 then '0' :: hexRep n else hexRep n)

/-- Embedding of `rgb_to_hex` (app.py:404-406). -/
def rgb_to_hex (c : Rgb) : String :=
  "#" ++ hex02 c.r ++ hex02 c.g ++ hex02 c.b

/-- Contiguous-sublist test on character lists (Python's `in` on strings). -/
def hasSubstr (hay needle : List Char) : Bool :=
  match hay with
  | [] => needle.isEmpty
  | c :: t => needle.isPrefixOf (c :: t) || hasSubstr t needle

/-- Python's `needle in hay` substring containment on strings. -/
def pyIn (needle hay : String) : Bool :=
  hasSubstr hay.data needle.data

/-- Texture-keyed base idea lists of `get_upcycling_ideas` (app.py:184-224):
the `if/elif` chain on substrings of the texture display name, each branch
extending `ideas` by exactly five strings. -/
def ideasBase (texture : String) : List String :=
  if pyIn "Cotton" texture then
    ["Tote bags and shopping bags",
     "Quilts and patchwork blankets",
     "Cushion covers and pillow cases",
     "Kitchen towels and napkins",
     "Eco-friendly gift wrapping"]
  else if pyIn "Denim" texture then
    ["Denim jackets and vests",
     "Tote bags and backpacks",
     "Aprons and work wear",
     "Home organizers and wall pockets",
     "Pet accessories and toys"]
  else if pyIn "Silk" texture then
    ["Scarves and accessories",
     "Premium cushion covers",
     "Decorative wall hangings",
     "Gift wrapping and packaging",
     "Jewelry pouches"]
  else if pyIn "Polyester" texture then
    ["Outdoor cushions and covers",
     "Reusable shopping bags",
     "Sports and gym bags",
     "Waterproof pouches",
     "Pet beds and accessories"]
  else
    ["Mixed fabric quilts",
     "Patchwork home decor",
     "Craft projects",
     "Fabric scrap art",
     "Multi-purpose bags"]

/-- Pattern-based additions of `get_upcycling_ideas` (app.py:226-229): two
appends guarded by `"Patchwork" in pattern or "Floral" in pattern`. -/
def patternExtras (pattern : String) : List String :=
  if pyIn "Patchwork" pattern || pyIn "Floral" pattern then
    ["Bohemian style clothing", "Decorative wall art"]
  else []

/-- The `ideas` list of `get_upcycling_ideas` just before the final `[:5]`
slice (app.py:182-229). -/
def ideasFull (texture pattern : String) : List String :=
  ideasBase texture ++ patternExtras pattern

/-- Embedding of `get_upcycling_ideas` (app.py:180-232).  The `color`
argument is accepted and ignored, as in the source. -/
def get_upcycling_ideas (texture pattern color : String) : List String :=
  (ideasFull texture pattern).take 5

/-- Embedding of `classify_color` (app.py:280-340); `r`, `g`, `b` are the
channels of the dominant K-means cluster center. -/
def classify_color (r g b : ℕ) : String :=
  let max_val := max r (max g b)
  let min_val := min r (min g b)
  let diff := max_val - min_val
  if diff < 30 then
    if max_val > 200 then "White/Light"
    else if max_val < 80 then "Black/Dark"
    else "Gray"
  else if r > g + 30 ∧ r > b + 30 then
    if r > 180 ∧ g < 100 then "Red"
    else if r > 150 ∧ g > 80 ∧ g < 150 then "Pink/Coral"
    else if r > 140 ∧ g > 60 then "Orange/Peach"
    else "Red/Pink"
  else if b > r + 30 ∧ b > g + 30 then
    if b > 150 ∧ r < 100 then "Blue"
    else if b > 100 ∧ r > 80 then "Purple/Violet"
    else "Blue"
  else if g > r + 30 ∧ g > b + 30 then
    if g > 150 ∧ b < 100 then "Green"
    else if g > 150 ∧ b > 100 then "Teal/Cyan"
    else "Green"
  else if r > 150 ∧ g > 150 ∧ b < 120 then
    if r > 200 ∧ g > 200 then "Yellow" else "Yellow/Gold"
  else if r > 100 ∧ g > 60 ∧ b < 100 ∧ r > g ∧ g > b then "Brown/Tan"
  else "Multi-color"

/-- Embedding of the texture decision ladder inside `analyze_image_ai`
(app.py:137-152), as a function of the three grayscale descriptors. -/
def classify_texture (edge_density variance std_dev : ℚ) : String :=
  if edge_density < 5/100 ∧ variance < 1000 then "Smooth Silk"
  else if edge_density < 10/100 ∧ variance < 2000 then "Smooth Cotton"
  else if edge_density < 15/100 ∧ std_dev < 40 then "Cotton"
  else if edge_density < 20/100 ∧ std_dev < 60 then "Textured Cotton"
  else if edge_density > 25/100 ∧ std_dev > 50 then "Denim"
  else if variance > 3000 then "Polyester Mix"
  else if edge_density > 20/100 then "Canvas/Heavy Cotton"
  else "Cotton Blend"

/-- Embedding of `detect_pattern` (app.py:343-359).  The source's `img`
parameter is unused in its body and is omitted here. -/
def detect_pattern (edge_density variance : ℚ) : String :=
  if edge_density > 30/100 then "Complex Patchwork"
  else if edge_density > 22/100 then "Patchwork"
  else if edge_density > 15/100 ∧ variance > 2500 then "Geometric"
  else if variance > 3500 then "Abstract/Mixed"
  else if edge_density < 8/100 then "Solid/Plain"
  else if 12/100 < edge_density ∧ edge_density < 18/100 then "Striped/Linear"
  else "Textured"

/-- Embedding of `assess_quality` (app.py:362-381).  `pixels` is
`img.shape[0] * img.shape[1]`; `blurVar` is the Laplacian variance of the
grayscale image when it was computed (`gray is not None`), `none` otherwise
(in which case the source uses the constant `0.8`). -/
def assess_quality (pixels : ℕ) (blurVar : Option ℚ) : ℚ :=
  let blur_normalized : ℚ :=
    match blurVar with
    | some bv => min (bv / 1000) 1
    | none => 8/10
  let resolution_score : ℚ := min ((pixels : ℚ) / 1000000) 1
  pyRound (blur_normalized * (6/10) + resolution_score * (4/10)) 2

/-- Embedding of `get_quality_rating` (app.py:384-393). -/
def get_quality_rating (score : ℚ) : String :=
  if score ≥ 9/10 then "Premium"
  else if score ≥ 75/100 then "Excellent"
  else if score ≥ 6/10 then "Good"
  else "Fair"

/-- Embedding of `estimate_weight` (app.py:396-401).  The source's `shape`
parameter is unused in its body and is omitted here. -/
def estimate_weight (edge_density : ℚ) : ℚ :=
  pyRound ((3/2) * (1 + edge_density)) 1

/-- The dictionary returned by `analyze_image_ai` / `simulate_ai_analysis`
(app.py:163-173 and 267-277).  Note: it has no provenance field. -/
structure AnalysisResult where
  color : String
  color_hex : String
  texture : String
  pattern : String
  quality : ℚ
  quality_rating : String
  estimated_weight : ℚ
  dominant_colors : List String
  upcycling_ideas : List String
deriving DecidableEq

/-- The random draws consumed by one run of `simulate_ai_analysis`
(app.py:263-265, 272, 274): three `random.choice` picks from five-element
lists and two `random.uniform` draws. -/
structure RandomChoices where
  colorIdx : Fin 5
  textureIdx : Fin 5
  patternIdx : Fin 5
  qualityDraw : ℚ
  weightDraw : ℚ

/-- The `colors` list of `simulate_ai_analysis` (app.py:239-245). -/
def simColors : List String :=
  ["Multi-color (Red, Blue, Beige)",
   "Pink/Coral Palette",
   "Denim Blue with Patches",
   "Earthy Tones",
   "Vibrant Mix"]

/-- The `textures` list of `simulate_ai_analysis` (app.py:247-253). -/
def simTextures : List String :=
  ["Cotton Quilted", "Denim", "Silk Blend", "Cotton Canvas", "Polyester Mix"]

/-- The `patterns` list of `simulate_ai_analysis` (app.py:255-261). -/
def simPatterns : List String :=
  ["Patchwork", "Striped", "Floral", "Geometric", "Abstract"]

/-- Embedding of `simulate_ai_analysis` (app.py:235-277), parameterized by
the random draws it consumes. -/
def simulate_ai_analysis (rc : RandomChoices) : AnalysisResult :=
  let selected_color := simColors.get rc.colorIdx
  let selected_texture := simTextures.get rc.textureIdx
  let selected_pattern := simPatterns.get rc.patternIdx
  { color := selected_color
    color_hex := "#d4af37"
    texture := selected_texture
    pattern := selected_pattern
    quality := pyRound rc.qualityDraw 2
    quality_rating := "Excellent"
    estimated_weight := pyRound rc.weightDraw 1
    dominant_colors := ["#d4af37", "#c94b7d", "#667eea"]
    upcycling_ideas :=
      get_upcycling_ideas selected_texture selected_pattern selected_color }

/-- Outcome of the external decode-and-measure steps of `analyze_image_ai`
(app.py:107-134, 158, 161): the K-means cluster centers (at least one, since
`KMeans(n_clusters=5)` on a decoded image always yields five; held
head-separated), the Canny edge density, the grayscale variance and standard
deviation, the pixel count of the image, and the Laplacian (blur) variance
used by `assess_quality`. -/
structure ImageStats where
  c0 : Rgb
  rest : List Rgb
  edge_density : ℚ
  variance : ℚ
  std_dev : ℚ
  pixels : ℕ
  blurVar : ℚ

/-- Embedding of `analyze_image_ai` (app.py:97-177).  `decoded = none`
models the failure path: any exception in the `try` block (e.g.
`cv2.imread` returning `None` on undecodable bytes, making `cvtColor`
raise) is caught and answered with `simulate_ai_analysis`; likewise the
`not HAS_AI_LIBS` early return.  The function itself always returns a
record — no exception escapes. -/
def analyze_image_ai (hasAILibs : Bool) (decoded : Option ImageStats)
    (rc : RandomChoices) : AnalysisResult :=
  if hasAILibs = false then simulate_ai_analysis rc
  else
    match decoded with
    | none => simulate_ai_analysis rc
    | some s =>
      let color_name := classify_color s.c0.r s.c0.g s.c0.b
      let texture := classify_texture s.edge_density s.variance s.std_dev
      let pattern := detect_pattern s.edge_density s.variance
      let quality_score := assess_quality s.pixels (some s.blurVar)
      { color := color_name
        color_hex := rgb_to_hex s.c0
        texture := texture
        pattern := pattern
        quality := quality_score
        quality_rating := get_quality_rating quality_score
        estimated_weight := estimate_weight s.edge_density
        dominant_colors := ((s.c0 :: s.rest).take 3).map rgb_to_hex
        upcycling_ideas := get_upcycling_ideas texture pattern color_name }

/-- Quality score as the spec's words state it (§4.5 / claim C3):
`min(0.95, 0.65 + (pixelCount / 2_000_000) * 0.20 + (variance / 10_000) * 0.10)`
clamped to `[0,1]`.  This definition follows the specification text, for
comparison with `assess_quality` from the source. -/
def specQualityScore (pixelCount : ℕ) (variance : ℚ) : ℚ :=
  max 0 (min 1 (min (95/100)
    (65/100 + ((pixelCount : ℚ) / 2000000) * (20/100) + (variance / 10000) * (10/100))))

/-- Rating tiers as the spec's words state them (§4.5 / claim C3):
`≥0.85 Excellent, ≥0.70 Good, else Fair`.  This definition follows the
specification text, for comparison with `get_quality_rating`. -/
def specQualityRating (score : ℚ) : String :=
  if score ≥ 85/100 then "Excellent"
  else if score ≥ 70/100 then "Good"
  else "Fair"

/-- HSV saturation of an RGB triple, in percent (standard formula
`(max-min)/max`), used to state claim C4's hypothesis. -/
def satPct (r g b : ℕ) : ℚ :=
  let M := max r (max g b)
  let m := min r (min g b)
  if M = 0 then 0 else (((M : ℚ) - (m : ℚ)) / (M : ℚ)) * 100

/-- HSV value (brightness) of an RGB triple, in percent (`max/255`), used to
state claim C4. -/
def valPct (r g b : ℕ) : ℚ :=
  ((max r (max g b) : ℕ) : ℚ) * 100 / 255

/-- Achromatic ladder as the spec's words state it (§4.2 / claim C4):
White (v>90), Light Gray (v>70), Gray (v>40), Dark Gray (v>20), Black.
This definition follows the specification text, for comparison with
`classify_color`. -/
def specAchromaticLadder (v : ℚ) : String :=
  if v > 90 then "White"
  else if v > 70 then "Light Gray"
  else if v > 40 then "Gray"
  else if v > 20 then "Dark Gray"
  else "Black"

/-- Rank of a pattern bucket in claim C5's order
Solid < Subtle < Striped/Geometric < Patchwork < Complex Patchwork, with the
source's `"Textured"` bucket (its residual, subtle tier) at the Subtle rank.
`"Abstract/Mixed"` does not occur in the claimed order and is unranked. -/
def patternRank (s : String) : Option ℕ :=
  if s = "Solid/Plain" then some 0
  else if s = "Textured" then some 1
  else if s = "Striped/Linear" then some 2
  else if s = "Geometric" then some 2
  else if s = "Patchwork" then some 3
  else if s = "Complex Patchwork" then some 4
  else none

/-- Closed-form rank of `detect_pattern edge variance` for `variance ≤ 3500`
(where the `"Abstract/Mixed"` branch is unreachable), with only atomic
if-conditions; see `patternRank_detect_pattern`. -/
def rankAux (variance edge : ℚ) : ℕ :=
  if edge > 30/100 then 4
  else if edge > 22/100 then 3
  else if edge > 15/100 then
    (if variance > 2500 then 2 else if edge < 18/100 then 2 else 1)
  else if edge < 8/100 then 0
  else if 12/100 < edge then 2
  else 1

theorem ideasBase_length (t : String) : (ideasBase t).length = 5 := by
  unfold ideasBase
  split_ifs <;> rfl

theorem get_upcycling_ideas_eq_base (t p c : String) :
    get_upcycling_ideas t p c = ideasBase t := by
  unfold get_upcycling_ideas ideasFull
  rw [← ideasBase_length t, List.take_left]

set_option maxHeartbeats 1600000 in
theorem patternRank_detect_pattern (v e : ℚ) (hv : v ≤ 3500) :
    patternRank (detect_pattern e v) = some (rankAux v e) := by
  have hv35 : ¬(v > 3500) := by linarith
  by_cases h30 : e > 30/100 <;>
  by_cases h22 : e > 22/100 <;>
  by_cases h15 : e > 15/100 <;>
  by_cases hv25 : v > 2500 <;>
  by_cases h18 : e < 18/100 <;>
  by_cases h08 : e < 8/100 <;>
  by_cases h12 : 12/100 < e <;>
  simp only [detect_pattern, rankAux, h30, h22, h15, hv25, h18, h08, h12,
    hv35, if_true, if_false, ite_true, ite_false, and_true, true_and,
    and_false, false_and, eq_self_iff_true, not_true, not_false_iff] <;>
  first | rfl | (exfalso; linarith)

set_option maxHeartbeats 1600000 in
theorem rankAux_mono (v e1 e2 : ℚ) (h12 : e1 ≤ e2)
    (hb : 2500 < v ∨
      ((e1 < 18/100 ∨ 22/100 < e1) ∧ (e2 < 18/100 ∨ 22/100 < e2))) :
    rankAux v e1 ≤ rankAux v e2 := by
  unfold rankAux
  rcases hb with hv | ⟨hb1, hb2⟩
  · split_ifs <;> first | omega | (exfalso; linarith)
  · rcases hb1 with hb1 | hb1 <;> rcases hb2 with hb2 | hb2 <;>
      split_ifs <;> first | omega | (exfalso; linarith)

theorem pyRound_ge_div (n : ℤ) (q : ℚ) (p : ℕ)
    (h : (n : ℚ) / (10 : ℚ) ^ p ≤ q) : (n : ℚ) / (10 : ℚ) ^ p ≤ pyRound q p := by
  have hp : (0 : ℚ) < (10 : ℚ) ^ p := by positivity
  have hn : (n : ℚ) ≤ q * (10 : ℚ) ^ p := by
    rw [div_le_iff₀ hp] at h
    exact h
  have hr : (n : ℚ) ≤ (roundHalfEven (q * (10 : ℚ) ^ p) : ℚ) := by
    exact_mod_cast roundHalfEven_ge_int n _ hn
  unfold pyRound
  exact (div_le_div_iff_of_pos_right hp).mpr hr

theorem pyRound_le_div (n : ℤ) (q : ℚ) (p : ℕ)
    (h : q ≤ (n : ℚ) / (10 : ℚ) ^ p) : pyRound q p ≤ (n : ℚ) / (10 : ℚ) ^ p := by
  have hp : (0 : ℚ) < (10 : ℚ) ^ p := by positivity
  have hn : q * (10 : ℚ) ^ p ≤ (n : ℚ) := by
    rw [le_div_iff₀ hp] at h
    exact h
  have hcast : (roundHalfEven (q * (10 : ℚ) ^ p) : ℚ) ≤ (n : ℚ) := by
    exact_mod_cast roundHalfEven_le_int n _ hn
  unfold pyRound
  exact (div_le_div_iff_of_pos_right hp).mpr hcast

/-- C9: for every texture string, pattern string and color string, the
suggestion lookup `get_upcycling_ideas` returns exactly five suggestion
strings — every texture branch of the knowledge base, the default branch
included, contributes five base ideas, and the result is truncated to the
first five. -/
theorem claim9_always_five_ideas (t p c : String) :
    (get_upcycling_ideas t p c).length = 5 := by
  rw [get_upcycling_ideas_eq_base, ideasBase_length]

/-- C7 (amended): every returned suggestion list is exactly the five-element
static knowledge-base list for the returned texture category (hence has
length at most 5 and draws only from that list).  The pattern-based
additions of the source are two fixed suggestions ("Bohemian style
clothing" and "Decorative wall art"), triggered by the substrings
"Patchwork" or "Floral" of the pattern name — not a single "Bohemian wall
art" on the patchwork/geometric categories — and they never survive the
final truncation to five items. -/
theorem claim7_suggestions_from_base (t p c : String) :
    get_upcycling_ideas t p c = ideasBase t
    ∧ (get_upcycling_ideas t p c).length ≤ 5 := by
  refine ⟨get_upcycling_ideas_eq_base t p c, ?_⟩
  rw [get_upcycling_ideas_eq_base, ideasBase_length]

/-- C7 (counterexample): contrary to the claim, the suggestion "Bohemian
wall art" is never appended — not for a "Patchwork" pattern and not for a
"Geometric" pattern; for "Geometric" the pre-truncation list has no
pattern-based addition at all, and for "Patchwork" the additions are
"Bohemian style clothing" and "Decorative wall art". -/
theorem claim7_cex :
    ("Bohemian wall art" ∉ ideasFull "Cotton" "Patchwork")
    ∧ ("Bohemian wall art" ∉ ideasFull "Cotton" "Geometric")
    ∧ ideasFull "Cotton" "Geometric" = ideasBase "Cotton"
    ∧ ideasFull "Cotton" "Patchwork"
        = ideasBase "Cotton" ++ ["Bohemian style clothing", "Decorative wall art"] := by
  refine ⟨?_, ?_, ?_, ?_⟩ <;> decide

/-- C6: the texture ladder answers "Denim" only when edge density above
0.25 and standard deviation above 50 co-occur; and any uniform-color image
(edge density below 0.05, variance below 1000 — regardless of hue, the
ladder never reads color) classifies as the smooth bucket "Smooth Silk",
never as "Denim". -/
theorem claim6_denim_requires_edges :
    (∀ e v s : ℚ, classify_texture e v s = "Denim" → e > 25/100 ∧ s > 50)
    ∧ (∀ e v s : ℚ, e < 5/100 → v < 1000 →
        classify_texture e v s = "Smooth Silk" ∧ classify_texture e v s ≠ "Denim") := by
  constructor
  · intro e v s h
    unfold classify_texture at h
    split_ifs at h with h1 h2 h3 h4 h5 h6 h7 <;> simp_all
  · intro e v s he hv
    have h : classify_texture e v s = "Smooth Silk" := by
      unfold classify_texture
      rw [if_pos ⟨he, hv⟩]
    refine ⟨h, ?_⟩
    rw [h]
    decide

/-- C6 (witness): a concrete "Denim" output at edge density 0.30 and
standard deviation 60 satisfies the claimed bounds, and the concrete
uniform image (all descriptors 0, e.g. uniform denim-blue RGB (40,70,110))
classifies as "Smooth Silk". -/
theorem claim6_witness :
    ((30/100 : ℚ) > 25/100 ∧ (60 : ℚ) > 50)
    ∧ (classify_texture 0 0 0 = "Smooth Silk" ∧ classify_texture 0 0 0 ≠ "Denim") := by
  have hd : classify_texture (30/100) 2500 60 = "Denim" := by
    norm_num [classify_texture]
  exact ⟨claim6_denim_requires_edges.1 (30/100) 2500 60 hd,
         claim6_denim_requires_edges.2 0 0 0 (by norm_num) (by norm_num)⟩

/-- C8: the quality score returned by `assess_quality` lies in the closed
interval [0,1], for every pixel count and every (nonnegative, as a variance
always is) Laplacian blur value — including the `gray is None` constant
branch. -/
theorem claim8_quality_bounds (pixels : ℕ) (b : Option ℚ)
    (hb : ∀ x, b = some x → 0 ≤ x) :
    0 ≤ assess_quality pixels b ∧ assess_quality pixels b ≤ 1 := by
  have hres0 : (0:ℚ) ≤ min ((pixels:ℚ)/1000000) 1 := le_min (by positivity) (by norm_num)
  have hres1 : min ((pixels:ℚ)/1000000) 1 ≤ 1 := min_le_right _ _
  have key : ∀ bn : ℚ, 0 ≤ bn → bn ≤ 1 →
      0 ≤ pyRound (bn * (6/10) + min ((pixels:ℚ)/1000000) 1 * (4/10)) 2
      ∧ pyRound (bn * (6/10) + min ((pixels:ℚ)/1000000) 1 * (4/10)) 2 ≤ 1 := by
    intro bn h0 h1
    constructor
    · have hq : ((0:ℤ):ℚ) ≤ bn * (6/10) + min ((pixels:ℚ)/1000000) 1 * (4/10) := by
        push_cast
        have := mul_nonneg h0 (by norm_num : (0:ℚ) ≤ 6/10)
        have := mul_nonneg hres0 (by norm_num : (0:ℚ) ≤ 4/10)
        linarith
      have := pyRound_ge_int 0 _ 2 hq
      simpa using this
    · have hq : bn * (6/10) + min ((pixels:ℚ)/1000000) 1 * (4/10) ≤ ((1:ℤ):ℚ) := by
        push_cast
        have := mul_le_mul_of_nonneg_right h1 (by norm_num : (0:ℚ) ≤ 6/10)
        have := mul_le_mul_of_nonneg_right hres1 (by norm_num : (0:ℚ) ≤ 4/10)
        linarith
      have := pyRound_le_int 1 _ 2 hq
      simpa using this
  cases b with
  | none => exact key (8/10) (by norm_num) (by norm_num)
  | some bv =>
    have hbv : 0 ≤ bv := hb bv rfl
    exact key (min (bv/1000) 1)
      (le_min (div_nonneg hbv (by norm_num)) (by norm_num)) (min_le_right _ _)

/-- C8 (witness): the bounds instantiated at a concrete half-megapixel
image with Laplacian variance 100. -/
theorem claim8_witness :
    0 ≤ assess_quality 500000 (some 100) ∧ assess_quality 500000 (some 100) ≤ 1 :=
  claim8_quality_bounds 500000 (some 100)
    (by intro x hx; injection hx with h; linarith)

/-- C10: every computed (non-fallback) analysis record carries an
`estimated_weight` equal to `round(1.5 * (1 + edge_density), 1)`, and for
edge densities in [0,1] (as a pixel fraction always is) this weight lies in
[1.5, 3.0]. -/
theorem claim10_estimated_weight (s : ImageStats) (rc : RandomChoices)
    (h0 : 0 ≤ s.edge_density) (h1 : s.edge_density ≤ 1) :
    (analyze_image_ai true (some s) rc).estimated_weight
        = pyRound ((3/2) * (1 + s.edge_density)) 1
    ∧ 3/2 ≤ (analyze_image_ai true (some s) rc).estimated_weight
    ∧ (analyze_image_ai true (some s) rc).estimated_weight ≤ 3 := by
  have heq : (analyze_image_ai true (some s) rc).estimated_weight
      = pyRound ((3/2) * (1 + s.edge_density)) 1 := rfl
  refine ⟨heq, ?_, ?_⟩
  · rw [heq]
    have hlow : ((15:ℤ):ℚ) / (10:ℚ)^1 ≤ (3/2) * (1 + s.edge_density) := by
      push_cast
      nlinarith
    have := pyRound_ge_div 15 _ 1 hlow
    have h32 : ((15:ℤ):ℚ) / (10:ℚ)^1 = 3/2 := by norm_num
    linarith [h32 ▸ this]
  · rw [heq]
    have hhigh : (3/2) * (1 + s.edge_density) ≤ ((3:ℤ):ℚ) := by
      push_cast
      nlinarith
    have := pyRound_le_int 3 _ 1 hhigh
    simpa using this

/-- C10 (witness): the weight equation and bounds at a concrete stats value
with edge density 1/2 (estimated weight round(2.25, 1) = 2.2). -/
theorem claim10_witness :
    (analyze_image_ai true
        (some ⟨⟨10, 20, 30⟩, [], 1/2, 100, 10, 500, 200⟩) ⟨0, 0, 0, 0, 0⟩).estimated_weight
      = pyRound ((3/2) * (1 + (1/2 : ℚ))) 1
    ∧ 3/2 ≤ (analyze_image_ai true
        (some ⟨⟨10, 20, 30⟩, [], 1/2, 100, 10, 500, 200⟩) ⟨0, 0, 0, 0, 0⟩).estimated_weight
    ∧ (analyze_image_ai true
        (some ⟨⟨10, 20, 30⟩, [], 1/2, 100, 10, 500, 200⟩) ⟨0, 0, 0, 0, 0⟩).estimated_weight ≤ 3 :=
  claim10_estimated_weight ⟨⟨10, 20, 30⟩, [], 1/2, 100, 10, 500, 200⟩ ⟨0, 0, 0, 0, 0⟩
    (by norm_num) (by norm_num)

/-- C3 (counterexample): at a uniform 2-megapixel image (pixel count
2,000,000; grayscale and Laplacian variance 0) the source's quality score
is 0.4, not the claimed `min(0.95, 0.65 + pixelCount/2e6*0.2 + var/1e4*0.1)
= 0.85`; and the source's rating tiers differ from the claimed ones:
score 0.9 rates "Premium" in the code, "Excellent" under the claim. -/
theorem claim3_cex :
    assess_quality 2000000 (some 0) = 2/5
    ∧ specQualityScore 2000000 0 = 85/100
    ∧ assess_quality 2000000 (some 0) ≠ specQualityScore 2000000 0
    ∧ get_quality_rating (9/10) = "Premium"
    ∧ specQualityRating (9/10) = "Excellent"
    ∧ get_quality_rating (9/10) ≠ specQualityRating (9/10) := by
  have h1 : assess_quality 2000000 (some 0) = 2/5 := by
    norm_num [assess_quality, pyRound, roundHalfEven, min_def]
  have h2 : specQualityScore 2000000 0 = 85/100 := by
    norm_num [specQualityScore, min_def, max_def]
  have h4 : get_quality_rating (9/10) = "Premium" := by
    norm_num [get_quality_rating]
  have h5 : specQualityRating (9/10) = "Excellent" := by
    norm_num [specQualityRating]
  refine ⟨h1, h2, ?_, h4, h5, ?_⟩
  · rw [h1, h2]
    norm_num
  · rw [h4, h5]
    decide

/-- C3 (amended): the source's quality score is
`round(min(blurVariance/1000, 1) * 0.6 + min(pixelCount/1e6, 1) * 0.4, 2)`
— blur (Laplacian variance) and resolution, not the claimed
pixel-count/variance formula — and its rating tiers are ≥0.9 "Premium",
≥0.75 "Excellent", ≥0.6 "Good", else "Fair". -/
theorem claim3_quality_formula :
    (∀ (pixels : ℕ) (bv : ℚ), assess_quality pixels (some bv)
        = pyRound (min (bv/1000) 1 * (6/10) + min ((pixels:ℚ)/1000000) 1 * (4/10)) 2)
    ∧ (∀ sc : ℚ,
        (get_quality_rating sc = "Premium" ↔ 9/10 ≤ sc)
        ∧ (get_quality_rating sc = "Excellent" ↔ 75/100 ≤ sc ∧ sc < 9/10)
        ∧ (get_quality_rating sc = "Good" ↔ 6/10 ≤ sc ∧ sc < 75/100)
        ∧ (get_quality_rating sc = "Fair" ↔ sc < 6/10)) := by
  constructor
  · intro pixels bv
    rfl
  · intro sc
    unfold get_quality_rating
    refine ⟨?_, ?_, ?_, ?_⟩ <;> split_ifs <;> simp_all <;> intros <;> linarith

/-- C4 (counterexample): uniform RGB (180,180,180) has saturation 0 (< 10%)
and HSV value about 70.6 (> 70), so the claimed achromatic ladder answers
"Light Gray"; the source's `classify_color` answers "Gray" — it has no
Light Gray (or Dark Gray) bucket at all. -/
theorem claim4_cex :
    satPct 180 180 180 < 10
    ∧ specAchromaticLadder (valPct 180 180 180) = "Light Gray"
    ∧ classify_color 180 180 180 = "Gray"
    ∧ ("Gray" : String) ≠ "Light Gray" := by
  refine ⟨?_, ?_, ?_, ?_⟩
  · norm_num [satPct]
  · norm_num [specAchromaticLadder, valPct]
  · decide
  · decide

/-- C4 (amended): for every 8-bit RGB sample with saturation below 10%, the
channel spread `max - min` is below 30, so `classify_color` takes its
grayscale branch and classifies by the maximum channel alone into just
three buckets — "White/Light" (max > 200), "Black/Dark" (max < 80), else
"Gray" — not the claimed five-rung value ladder; uniform gray
RGB (128,128,128) does yield "Gray". -/
theorem claim4_achromatic_branch :
    (∀ r g b : ℕ, r ≤ 255 → g ≤ 255 → b ≤ 255 → satPct r g b < 10 →
      classify_color r g b =
        (if max r (max g b) > 200 then "White/Light"
         else if max r (max g b) < 80 then "Black/Dark" else "Gray"))
    ∧ classify_color 128 128 128 = "Gray" := by
  constructor
  · intro r g b hr hg hb hs
    have hm : min r (min g b) ≤ max r (max g b) :=
      le_trans (min_le_left _ _) (le_max_left _ _)
    have hM255 : max r (max g b) ≤ 255 := max_le hr (max_le hg hb)
    have hdiff : max r (max g b) - min r (min g b) < 30 := by
      unfold satPct at hs
      set M := max r (max g b) with hMdef
      set m := min r (min g b) with hmdef
      by_cases hM : M = 0
      · omega
      · rw [if_neg hM] at hs
        have hMpos : 0 < M := Nat.pos_of_ne_zero hM
        have hMposQ : (0:ℚ) < (M : ℚ) := by exact_mod_cast hMpos
        rw [div_mul_eq_mul_div, div_lt_iff₀ hMposQ] at hs
        have hnat : 10 * (M - m) < M := by
          have hcast : ((M - m : ℕ) : ℚ) = (M : ℚ) - (m : ℚ) := Nat.cast_sub hm
          have hq : ((10 * (M - m) : ℕ) : ℚ) < (M : ℚ) := by
            rw [Nat.cast_mul, hcast]
            push_cast
            linarith
          exact_mod_cast hq
        omega
    show classify_color r g b = _
    unfold classify_color
    simp only [if_pos hdiff]
  · decide

/-- C4 (witness): the amended grayscale-branch rule instantiated at uniform
RGB (128,128,128) — saturation 0, channel maximum 128 — giving "Gray". -/
theorem claim4_witness :
    classify_color 128 128 128
      = (if max 128 (max 128 128) > 200 then "White/Light"
         else if max 128 (max 128 128) < 80 then "Black/Dark" else "Gray") :=
  claim4_achromatic_branch.1 128 128 128 (by norm_num) (by norm_num) (by norm_num)
    (by norm_num [satPct])

/-- C5 (counterexample): with variance fixed at 1000, edge density 0.13
yields "Striped/Linear" (rank 2 in the claimed order) while the larger edge
density 0.19 yields "Textured" (the subtle tier, rank 1): the pattern
ladder is not monotone in edge density. -/
theorem claim5_cex :
    (13/100 : ℚ) ≤ 19/100
    ∧ detect_pattern (13/100) 1000 = "Striped/Linear"
    ∧ detect_pattern (19/100) 1000 = "Textured"
    ∧ patternRank (detect_pattern (13/100) 1000) = some 2
    ∧ patternRank (detect_pattern (19/100) 1000) = some 1 := by
  have h1 : detect_pattern (13/100) 1000 = "Striped/Linear" := by
    norm_num [detect_pattern]
  have h2 : detect_pattern (19/100) 1000 = "Textured" := by
    norm_num [detect_pattern]
  refine ⟨by norm_num, h1, h2, ?_, ?_⟩
  · rw [h1]
    decide
  · rw [h2]
    decide

/-- C5 (amended): the claimed monotonicity holds away from the failure just
exhibited: for variance at most 3500 (so the unranked "Abstract/Mixed"
bucket cannot occur) and edge densities `e1 ≤ e2`, the bucket rank (with
the source's "Textured" at the claimed Subtle tier) does not decrease,
provided variance exceeds 2500 or neither edge density lies in the
rank-dropping band [0.18, 0.22]. -/
theorem claim5_pattern_monotone (v e1 e2 : ℚ) (n1 n2 : ℕ)
    (h12 : e1 ≤ e2) (hv : v ≤ 3500)
    (hb : 2500 < v ∨
      ((e1 < 18/100 ∨ 22/100 < e1) ∧ (e2 < 18/100 ∨ 22/100 < e2)))
    (h1 : patternRank (detect_pattern e1 v) = some n1)
    (h2 : patternRank (detect_pattern e2 v) = some n2) : n1 ≤ n2 := by
  rw [patternRank_detect_pattern v e1 hv] at h1
  rw [patternRank_detect_pattern v e2 hv] at h2
  obtain rfl : n1 = rankAux v e1 := (Option.some.inj h1).symm
  obtain rfl : n2 = rankAux v e2 := (Option.some.inj h2).symm
  exact rankAux_mono v e1 e2 h12 hb

/-- C5 (witness): the amended monotonicity instantiated at variance 1000
with edge densities 0.05 ("Solid/Plain", rank 0) and 0.25 ("Patchwork",
rank 3). -/
theorem claim5_witness :
    patternRank (detect_pattern (5/100) 1000) = some 0
    ∧ patternRank (detect_pattern (25/100) 1000) = some 3
    ∧ (0 : ℕ) ≤ 3 := by
  have h0 : patternRank (detect_pattern (5/100) 1000) = some 0 := by
    have : detect_pattern (5/100) 1000 = "Solid/Plain" := by norm_num [detect_pattern]
    rw [this]
    decide
  have h3 : patternRank (detect_pattern (25/100) 1000) = some 3 := by
    have : detect_pattern (25/100) 1000 = "Patchwork" := by norm_num [detect_pattern]
    rw [this]
    decide
  exact ⟨h0, h3,
    claim5_pattern_monotone 1000 (5/100) (25/100) 0 3 (by norm_num) (by norm_num)
      (Or.inr ⟨Or.inl (by norm_num), Or.inr (by norm_num)⟩) h0 h3⟩

/-- C1 (counterexample): on the failure path the entry point does return
normally, but the record is not the claimed fixed fallback: with the
texture draw landing on "Denim" and a quality draw of 0.8 the returned
record has quality_rating "Excellent" (never "Good"), texture "Denim"
(neither "Cotton Blend" nor "Cotton"), and quality 0.8 ≠ 0.75; the record
type has no provenance field at all. -/
theorem claim1_cex :
    (analyze_image_ai true none ⟨0, 1, 0, 8/10, 2⟩).quality_rating = "Excellent"
    ∧ (analyze_image_ai true none ⟨0, 1, 0, 8/10, 2⟩).quality_rating ≠ "Good"
    ∧ (analyze_image_ai true none ⟨0, 1, 0, 8/10, 2⟩).texture = "Denim"
    ∧ (analyze_image_ai true none ⟨0, 1, 0, 8/10, 2⟩).texture ≠ "Cotton Blend"
    ∧ (analyze_image_ai true none ⟨0, 1, 0, 8/10, 2⟩).texture ≠ "Cotton"
    ∧ (analyze_image_ai true none ⟨0, 1, 0, 8/10, 2⟩).quality ≠ 75/100 := by
  refine ⟨rfl, by decide, rfl, by decide, by decide, ?_⟩
  show pyRound (8/10) 2 ≠ 75/100
  norm_num [pyRound, roundHalfEven]

/-- C1 (amended): on every internal-analysis failure the entry point still
returns normally, but what it returns is the randomized simulation record:
color, texture and pattern are the random draws from the three fixed
five-element lists, the rating is always "Excellent" (never "Good"), there
is no provenance field, and the quality is the rounded uniform draw, lying
in [0.7, 0.95] whenever the draw does. -/
theorem claim1_fallback_is_simulation (rc : RandomChoices) :
    analyze_image_ai true none rc = simulate_ai_analysis rc
    ∧ (simulate_ai_analysis rc).quality_rating = "Excellent"
    ∧ (simulate_ai_analysis rc).texture = simTextures.get rc.textureIdx
    ∧ (simulate_ai_analysis rc).color = simColors.get rc.colorIdx
    ∧ (simulate_ai_analysis rc).pattern = simPatterns.get rc.patternIdx
    ∧ (7/10 ≤ rc.qualityDraw → rc.qualityDraw ≤ 95/100 →
        7/10 ≤ (simulate_ai_analysis rc).quality
        ∧ (simulate_ai_analysis rc).quality ≤ 95/100) := by
  refine ⟨rfl, rfl, rfl, rfl, rfl, ?_⟩
  intro hlo hhi
  constructor
  · have h := pyRound_ge_div 70 rc.qualityDraw 2 (by push_cast; norm_num; linarith)
    have h70 : ((70:ℤ):ℚ) / (10:ℚ)^2 = 7/10 := by norm_num
    show 7/10 ≤ pyRound rc.qualityDraw 2
    linarith [h70 ▸ h]
  · have h := pyRound_le_div 95 rc.qualityDraw 2 (by push_cast; norm_num; linarith)
    have h95 : ((95:ℤ):ℚ) / (10:ℚ)^2 = 95/100 := by norm_num
    show pyRound rc.qualityDraw 2 ≤ 95/100
    linarith [h95 ▸ h]

/-- C1 (witness): the amended statement at the concrete draw
(0, 0, 0, 0.75, 2), whose quality draw lies in [0.7, 0.95]. -/
theorem claim1_witness :
    analyze_image_ai true none ⟨0, 0, 0, 3/4, 2⟩ = simulate_ai_analysis ⟨0, 0, 0, 3/4, 2⟩
    ∧ 7/10 ≤ (simulate_ai_analysis (⟨0, 0, 0, 3/4, 2⟩ : RandomChoices)).quality
    ∧ (simulate_ai_analysis (⟨0, 0, 0, 3/4, 2⟩ : RandomChoices)).quality ≤ 95/100 := by
  obtain ⟨h1, _, _, _, _, h6⟩ := claim1_fallback_is_simulation ⟨0, 0, 0, 3/4, 2⟩
  exact ⟨h1, (h6 (by norm_num) (by norm_num)).1, (h6 (by norm_num) (by norm_num)).2⟩

/-- C2 (counterexample): two invocations on the same (undecodable) input
byte buffer with different random draws return different records — the
fallback branch consumes `random.choice`, so the pipeline is not a
deterministic function of the input alone. -/
theorem claim2_cex :
    analyze_image_ai true none (⟨0, 0, 0, 3/4, 2⟩ : RandomChoices)
      ≠ analyze_image_ai true none (⟨0, 1, 0, 3/4, 2⟩ : RandomChoices) := by
  intro h
  exact absurd (congrArg AnalysisResult.texture h) (by decide)

/-- C2 (amended): the successful-analysis branch is deterministic — for a
fixed decoded image (fixed descriptor set) the returned record does not
depend on the random draws at all; only the failure/simulation branch is
randomized. -/
theorem claim2_success_deterministic (s : ImageStats) (r1 r2 : RandomChoices) :
    analyze_image_ai true (some s) r1 = analyze_image_ai true (some s) r2 := rfl
